import Mathlib

/-!
Verification development for the pre-apply credential-rotation tool
(`pre-apply/pre_apply.py`): template hashing and stack reconciliation
(`md5_hash`, `deploy_cloudformation`), access-key rotation
(`generate_aws_keys`), secret publication with bounded retry
(`push_github_secret`), password generation (`generate_pg_password`),
and the orchestrating `main` (modelled as `pre_apply_main`).

Machine integers are modelled as `Nat` with explicit reduction modulo
`2 ^ 32` where the MD5 algorithm requires 32-bit wraparound.  Stateful
cloud interactions are modelled by explicit environments (what the cloud
APIs would answer) and traces of the calls issued.
-/

/-! ### UTF-8 encoding (Python's `str.encode("utf-8")`) -/

/-- The UTF-8 encoding of a single Unicode scalar value, as a list of bytes. -/
def utf8EncodeChar (c : Char) : List Nat :=
  let n := c.toNat
  if n < 0x80 then [n]
  else if n < 0x800 then
    [0xC0 ||| (n >>> 6), 0x80 ||| (n &&& 0x3F)]
  else if n < 0x10000 then
    [0xE0 ||| (n >>> 12), 0x80 ||| ((n >>> 6) &&& 0x3F), 0x80 ||| (n &&& 0x3F)]
  else
    [0xF0 ||| (n >>> 18), 0x80 ||| ((n >>> 12) &&& 0x3F),
     0x80 ||| ((n >>> 6) &&& 0x3F), 0x80 ||| (n &&& 0x3F)]

/-- The UTF-8 encoding of a string, as the list of its bytes. -/
def utf8Encode (s : String) : List Nat :=
  (s.data.map utf8EncodeChar).flatten

/-! ### MD5 (Python's `hashlib.md5(...).hexdigest()`)

A direct implementation of RFC 1321 over `Nat`, every 32-bit operation
followed by reduction modulo `2 ^ 32`. -/

/-- Truncation modulo `2 ^ 32`. -/
def mask32 (x : Nat) : Nat := x % 4294967296

/-- Bitwise complement within 32 bits. -/
def not32 (x : Nat) : Nat := 4294967295 ^^^ x

/-- Left rotation of a 32-bit word by `s` bits. -/
def rotl32 (x s : Nat) : Nat :=
  mask32 ((x <<< s) ||| (x >>> (32 - s)))

/-- The MD5 per-round addition constants `K[i] = floor(2^32 * |sin(i+1)|)`. -/
def md5K : List Nat :=
  [3614090360, 3905402710, 606105819, 3250441966, 4118548399, 1200080426,
   2821735955, 4249261313, 1770035416, 2336552879, 4294925233, 2304563134,
   1804603682, 4254626195, 2792965006, 1236535329, 4129170786, 3225465664,
   643717713, 3921069994, 3593408605, 38016083, 3634488961, 3889429448,
   568446438, 3275163606, 4107603335, 1163531501, 2850285829, 4243563512,
   1735328473, 2368359562, 4294588738, 2272392833, 1839030562, 4259657740,
   2763975236, 1272893353, 4139469664, 3200236656, 681279174, 3936430074,
   3572445317, 76029189, 3654602809, 3873151461, 530742520, 3299628645,
   4096336452, 1126891415, 2878612391, 4237533241, 1700485571, 2399980690,
   4293915773, 2240044497, 1873313359, 4264355552, 2734768916, 1309151649,
   4149444226, 3174756917, 718787259, 3951481745]

/-- The MD5 per-round left-rotation amounts. -/
def md5S : List Nat :=
  [7, 12, 17, 22, 7, 12, 17, 22, 7, 12, 17, 22, 7, 12, 17, 22,
   5, 9, 14, 20, 5, 9, 14, 20, 5, 9, 14, 20, 5, 9, 14, 20,
   4, 11, 16, 23, 4, 11, 16, 23, 4, 11, 16, 23, 4, 11, 16, 23,
   6, 10, 15, 21, 6, 10, 15, 21, 6, 10, 15, 21, 6, 10, 15, 21]

/-- MD5 round mixing function, depending on the round quartile. -/
def md5F (i b c d : Nat) : Nat :=
  if i < 16 then (b &&& c) ||| (not32 b &&& d)
  else if i < 32 then (d &&& b) ||| (not32 d &&& c)
  else if i < 48 then b ^^^ c ^^^ d
  else c ^^^ (b ||| not32 d)

/-- MD5 message-word index for round `i`. -/
def md5G (i : Nat) : Nat :=
  if i < 16 then i
  else if i < 32 then (5 * i + 1) % 16
  else if i < 48 then (3 * i + 5) % 16
  else (7 * i) % 16

/-- One MD5 round applied to the state `(a, b, c, d)`, with message words `m`. -/
def md5Round (m : List Nat) (st : Nat × Nat × Nat × Nat) (i : Nat) :
    Nat × Nat × Nat × Nat :=
  let a := st.1
  let b := st.2.1
  let c := st.2.2.1
  let d := st.2.2.2
  let f := mask32 (md5F i b c d + a + md5K.getD i 0 + m.getD (md5G i) 0)
  (d, mask32 (b + rotl32 f (md5S.getD i 0)), b, c)

/-- Split a 64-byte block into sixteen little-endian 32-bit words. -/
def md5Words (block : List Nat) : List Nat :=
  (List.range 16).map fun j =>
    block.getD (4 * j) 0 + 256 * block.getD (4 * j + 1) 0 +
    65536 * block.getD (4 * j + 2) 0 + 16777216 * block.getD (4 * j + 3) 0

/-- Process one 64-byte block, updating the running digest state. -/
def md5Block (h : Nat × Nat × Nat × Nat) (block : List Nat) :
    Nat × Nat × Nat × Nat :=
  let m := md5Words block
  let r := (List.range 64).foldl (md5Round m) h
  (mask32 (h.1 + r.1), mask32 (h.2.1 + r.2.1),
   mask32 (h.2.2.1 + r.2.2.1), mask32 (h.2.2.2 + r.2.2.2))

/-- MD5 padding: `0x80`, zeros up to 56 mod 64, then the bit length
as eight little-endian bytes. -/
def md5Pad (msg : List Nat) : List Nat :=
  let len := msg.length
  let zeros := (55 - len % 64 + 64) % 64
  let bitLen := 8 * len
  msg ++ [0x80] ++ List.replicate zeros 0 ++
    (List.range 8).map fun j => (bitLen >>> (8 * j)) % 256

/-- The padded message split into 64-byte blocks. -/
def md5Chunks (padded : List Nat) : List (List Nat) :=
  (List.range (padded.length / 64)).map fun i => ((padded.drop (64 * i)).take 64)

/-- A byte rendered as two lowercase hexadecimal characters. -/
def byteToHex (b : Nat) : List Char :=
  let hexDigit := fun n => "0123456789abcdef".data.getD n '0'
  [hexDigit (b / 16), hexDigit (b % 16)]

/-- A 32-bit word rendered as eight hex characters, little-endian byte order. -/
def wordToHexLE (w : Nat) : List Char :=
  byteToHex (w % 256) ++ byteToHex ((w >>> 8) % 256) ++
  byteToHex ((w >>> 16) % 256) ++ byteToHex ((w >>> 24) % 256)

/-- MD5 digest of a byte list, as the 32-character lowercase hex string. -/
def md5Hex (msg : List Nat) : String :=
  let init := (0x67452301, 0xefcdab89, 0x98badcfe, 0x10325476)
  let h := (md5Chunks (md5Pad msg)).foldl md5Block init
  String.mk (wordToHexLE h.1 ++ wordToHexLE h.2.1 ++
             wordToHexLE h.2.2.1 ++ wordToHexLE h.2.2.2)

/-- Model of the source's `md5_hash(text)`: the MD5 hexdigest of the UTF-8
encoding of `text`. -/
def md5_hash (text : String) : String :=
  md5Hex (utf8Encode text)

/-! ### Python's `json.dumps` applied to a string value

In `deploy_cloudformation` the remote template body returned by
`get_template` is passed through `json.dumps` before hashing.  For the
repository's YAML template the returned body is a string, so we model the
string case of `json.dumps` (default `ensure_ascii=True`): the value is
wrapped in double quotes with JSON escaping applied to each character. -/

/-- A code point rendered as four lowercase hexadecimal characters. -/
def hex4 (n : Nat) : List Char :=
  let d := fun k => "0123456789abcdef".data.getD k '0'
  [d (n / 4096 % 16), d (n / 256 % 16), d (n / 16 % 16), d (n % 16)]

/-- JSON escaping of one character, as produced by Python's `json.dumps`
with `ensure_ascii=True`: short escapes for the usual control characters,
`\uXXXX` (with surrogate pairs beyond the BMP) for everything outside
printable ASCII. -/
def jsonEscapeChar (c : Char) : List Char :=
  let n := c.toNat
  if c = '"' then ['\\', '"']
  else if c = '\\' then ['\\', '\\']
  else if n = 8 then ['\\', 'b']
  else if n = 9 then ['\\', 't']
  else if n = 10 then ['\\', 'n']
  else if n = 12 then ['\\', 'f']
  else if n = 13 then ['\\', 'r']
  else if n < 0x20 ∨ n > 0x7e then
    if n < 0x10000 then '\\' :: 'u' :: hex4 n
    else
      let m := n - 0x10000
      ('\\' :: 'u' :: hex4 (0xD800 + m / 1024)) ++
        ('\\' :: 'u' :: hex4 (0xDC00 + m % 1024))
  else [c]

/-- Model of `json.dumps(s)` for a string value `s`. -/
def jsonDumpsString (s : String) : String :=
  String.mk ('"' :: (s.data.map jsonEscapeChar).flatten ++ ['"'])

/-! ### Substring test (Python's `in` on strings) -/

/-- Whether `needle` occurs as a contiguous run inside the list `hay`. -/
def listInfixCheck (needle : List Char) : List Char → Bool
  | [] => needle.isEmpty
  | c :: rest => needle.isPrefixOf (c :: rest) || listInfixCheck needle rest

/-- Model of Python's `needle in hay` on strings. -/
def strContains (hay needle : String) : Bool :=
  listInfixCheck needle.data hay.data

/-! ### Stack reconciliation (`deploy_cloudformation`)

The CloudFormation service is modelled by a `CFEnv` describing what its
API calls would answer on this run; `deploy_cloudformation` returns the
trace of calls it issues together with its outcome (`Except.error` models
an uncaught exception aborting the run). -/

/-- The CloudFormation API calls the reconciler can issue. -/
inductive CFCall where
  | describeStacks
  | getTemplate
  | updateStack
  | createStack
  deriving DecidableEq, Repr

/-- What the CloudFormation API would answer on this run.  `remoteTemplate
= none` models `get_template` (or the subsequent hashing) raising an
exception; `updateError` / `createError` give the `ClientError` message
raised by `update_stack` / `create_stack`, or `none` when the call
succeeds. -/
structure CFEnv where
  templateBody : String
  stackExists : Bool
  remoteTemplate : Option String
  updateError : Option String
  createError : Option String
  deriving DecidableEq, Repr

/-- The remote hash the reconciler computes: the template body returned by
`get_template` is re-serialized with `json.dumps` and hashed with
`md5_hash`; a fetch failure leaves the hash unknown (`none`). -/
def remoteHash (env : CFEnv) : Option String :=
  env.remoteTemplate.map fun t => md5_hash (jsonDumpsString t)

/-- The `ClientError` fragment the update path reclassifies as success. -/
def noUpdatesMsg : String := "No updates are to be performed"

/-- Model of `deploy_cloudformation`: decide create / update / no-op from
stack existence and the hash comparison, returning the issued calls and
the outcome. -/
def deploy_cloudformation (env : CFEnv) : List CFCall × Except String Unit :=
  let templateHash := md5_hash env.templateBody
  if env.stackExists then
    if remoteHash env = some templateHash then
      ([CFCall.describeStacks, CFCall.getTemplate], Except.ok ())
    else
      match env.updateError with
      | none =>
          ([CFCall.describeStacks, CFCall.getTemplate, CFCall.updateStack],
           Except.ok ())
      | some e =>
          if strContains e noUpdatesMsg then
            ([CFCall.describeStacks, CFCall.getTemplate, CFCall.updateStack],
             Except.ok ())
          else
            ([CFCall.describeStacks, CFCall.getTemplate, CFCall.updateStack],
             Except.error e)
  else
    match env.createError with
    | none => ([CFCall.describeStacks, CFCall.createStack], Except.ok ())
    | some e => ([CFCall.describeStacks, CFCall.createStack], Except.error e)

/-! ### Access-key rotation (`generate_aws_keys`)

The IAM state is the list of the principal's access-key ids, oldest
first.  A fresh key id and secret are parameters (what `create_access_key`
would mint on this run). -/

/-- Outcome of one rotation: the key list afterwards, the ids deleted (in
deletion order), and the returned `(AccessKeyId, SecretAccessKey)` pair. -/
structure RotationResult where
  finalKeys : List String
  deletedKeys : List String
  newId : String
  newSecret : String
  deriving DecidableEq, Repr

/-- Model of `generate_aws_keys`: list the keys; when at least 2 exist,
delete every listed key; then create exactly one new key. -/
def generate_aws_keys (keys : List String) (freshId freshSecret : String) :
    RotationResult :=
  if keys.length ≥ 2 then
    ⟨[freshId], keys, freshId, freshSecret⟩
  else
    ⟨keys ++ [freshId], [], freshId, freshSecret⟩

/-- The successive key sets observable during `generate_aws_keys`: the
initial set, the set after each single-key deletion (the loop deletes the
listed keys one at a time, in order), and the set after the new key is
created. -/
def rotationStates (keys : List String) (freshId : String) :
    List (List String) :=
  if keys.length ≥ 2 then
    ((List.range (keys.length + 1)).map fun i => keys.drop i) ++ [[freshId]]
  else
    [keys, keys ++ [freshId]]

/-- The last intermediate state of a rotation is its final key set. -/
theorem rotationStates_getLast (keys : List String) (freshId freshSecret : String) :
    (rotationStates keys freshId).getLast? =
      some (generate_aws_keys keys freshId freshSecret).finalKeys := by
  unfold rotationStates generate_aws_keys
  by_cases h : keys.length ≥ 2 <;> simp [h, List.getLast?_append]

/-! ### Secret publication with bounded retry (`push_github_secret`)

An endpoint is modelled as the HTTP status it answers on each attempt
(attempts are numbered from 1, as in the source's loop). -/

/-- The statuses the PUT loop accepts as success. -/
def isSuccessStatus (s : Nat) : Bool := s = 201 || s = 204

/-- The retry loop of `push_github_secret`: attempt `i` with `fuel`
attempts remaining; return how many PUT calls were made and whether one
succeeded (`false` models the final `sys.exit`). -/
def pushAttempts (status : Nat → Nat) : Nat → Nat → Nat × Bool
  | _, 0 => (0, false)
  | i, fuel + 1 =>
    if isSuccessStatus (status i) then (1, true)
    else
      let r := pushAttempts status (i + 1) fuel
      (r.1 + 1, r.2)

/-- Model of `push_github_secret`: up to 3 attempts, starting at attempt 1. -/
def push_github_secret (status : Nat → Nat) : Nat × Bool :=
  pushAttempts status 1 3

/-- A sequence of secret pushes, as `main` performs them: process the
endpoints in order, recording each secret's PUT-call count; a failed push
terminates the run (`false`) without touching the remaining secrets. -/
def publishRun : List (Nat → Nat) → List Nat × Bool
  | [] => ([], true)
  | e :: rest =>
    let r := push_github_secret e
    if r.2 then
      let rr := publishRun rest
      (r.1 :: rr.1, rr.2)
    else ([r.1], false)

/-! ### Password generation (`generate_pg_password`)

Python's `random` is modelled by a stream of naturals consumed left to
right: `random.choice(s)` picks index `n % len(s)` using the next stream
element, and `random.shuffle` repeatedly extracts the element at a
stream-chosen index, which is a permutation for every stream. -/

/-- The four character classes and their union, exactly as in the source
(`string.ascii_uppercase`, `string.ascii_lowercase`, the digits string
excludes the character 0, and the fixed symbol string). -/
def letters_upper : String := "ABCDEFGHIJKLMNOPQRSTUVWXYZ"

/-- Lowercase class (`string.ascii_lowercase`). -/
def letters_lower : String := "abcdefghijklmnopqrstuvwxyz"

/-- Digit class: the source's literal excludes the character 0. -/
def digits : String := "123456789"

/-- The fixed symbol alphabet. -/
def symbols : String := "!@#$%^&*()-+="

/-- The union the remaining positions draw from. -/
def all_chars : String := letters_upper ++ letters_lower ++ digits ++ symbols

/-- Model of `random.choice(s)` driven by one stream element `n`. -/
def pyChoice (n : Nat) (s : List Char) : Char :=
  s.getD (n % s.length) 'A'

/-- One extraction-based shuffle pass with explicit fuel (the fuel is the
initial length, so it never runs out). -/
def shuffleAux (rand : List Nat) (fuel : Nat) (l : List Char) : List Char :=
  match fuel, l with
  | 0, l => l
  | _ + 1, [] => []
  | fuel + 1, x :: xs =>
    let pool := x :: xs
    let c := pyChoice (rand.headD 0) pool
    c :: shuffleAux rand.tail fuel (pool.erase c)

/-- Model of `random.shuffle`: an RNG-driven permutation of the list. -/
def pyShuffle (rand : List Nat) (l : List Char) : List Char :=
  shuffleAux rand l.length l

/-- The validation message of `generate_pg_password`. -/
def pgErrMsg : String :=
  "Password length must be at least 4 to include all character types."

/-- The pre-shuffle character sequence: one guaranteed character per
class, then `length - 4` draws from the union. -/
def pgPool (rand : List Nat) (length : Nat) : List Char :=
  [pyChoice (rand.getD 0 0) letters_upper.data,
   pyChoice (rand.getD 1 0) letters_lower.data,
   pyChoice (rand.getD 2 0) digits.data,
   pyChoice (rand.getD 3 0) symbols.data] ++
  (List.range (length - 4)).map fun k =>
    pyChoice (rand.getD (4 + k) 0) all_chars.data

/-- Model of `generate_pg_password`: reject lengths below 4; otherwise
build the guaranteed-plus-random sequence and shuffle it. -/
def generate_pg_password (rand : List Nat) (length : Nat) :
    Except String String :=
  if length < 4 then Except.error pgErrMsg
  else Except.ok (String.mk (pyShuffle (rand.drop length) (pgPool rand length)))

/-! ### The orchestrating `main`

Invocation intent (the parsed flags, with the effective GitHub token
after overrides) plus an environment describing what every external
service would answer.  `main` returns the trace of externally visible
events and the run's outcome (`Except.error` models `sys.exit` with a
message, or an uncaught exception). -/

/-- The parsed command-line intent; `ghToken` is the effective token after
the `--gh-token` override or the environment variable. -/
structure Args where
  deployPreApply : Bool
  generateKey : Bool
  updateSecrets : Bool
  ghToken : String
  deriving DecidableEq, Repr

/-- Externally visible events of one run. -/
inductive Event where
  | cfCall (c : CFCall)
  | iamListKeys
  | iamDeleteKey (id : String)
  | iamCreateKey
  | ghPublicKeyFetch
  | stsGetAccountId
  | ghSecretPut (name : String)
  | published (name : String)
  deriving DecidableEq, Repr

/-- Network calls belonging to the publish (`--update-secrets`) phase. -/
def isPublishNetworkEvent : Event → Bool
  | Event.ghPublicKeyFetch => true
  | Event.stsGetAccountId => true
  | Event.ghSecretPut _ => true
  | _ => false

/-- Whether the event records a successfully published secret. -/
def isPublishedEvent : Event → Bool
  | Event.published _ => true
  | _ => false

/-- What every external service would answer on this run. -/
structure RunEnv where
  cf : CFEnv
  iamKeys : List String
  freshId : String
  freshSecret : String
  publicKey : Option (String × String)
  accountId : String
  putStatus : String → Nat → Nat
  pgRand : List Nat

/-- The fixed, enumerated secret names pushed by the publish phase, in
source order. -/
def secretNames : List String :=
  ["AWS_ACCESS_KEY_ID", "AWS_SECRET_ACCESS_KEY", "AWS_ACCOUNT_ID",
   "AWS_REGION", "PG_USER", "PG_PASSWORD"]

/-- The `sys.exit` message for a missing GitHub token. -/
def tokenErrMsg : String :=
  "Error: GitHub token is required (use --gh-token or export GH_SECRET_TOKEN)"

/-- The `sys.exit` message for publishing without freshly rotated keys. -/
def credsErrMsg : String :=
  "Error: AWS access keys required - generate keys first using --generate-key"

/-- The `sys.exit` message when no intent flag is given. -/
def noActionMsg : String :=
  "Error: No action specified - use --deploy-pre-apply, --generate-key, or --update-secrets"

/-- The `sys.exit` message when the public-key fetch exhausts its retries. -/
def pkFetchErrMsg : String :=
  "Error: Could not retrieve GitHub public key after 3 attempts"

/-- The `sys.exit` message prefix for a secret whose PUT retries are
exhausted. -/
def pushErrMsg (name : String) : String :=
  "Failed to push secret " ++ name ++ " after 3 attempts"

/-- The events of one secret's push: one PUT event per attempt, and a
`published` event when an attempt succeeded. -/
def pushSecretEvents (name : String) (status : Nat → Nat) :
    List Event × Bool :=
  let r := push_github_secret status
  (List.replicate r.1 (Event.ghSecretPut name) ++
     (if r.2 then [Event.published name] else []), r.2)

/-- The publish loop over the named secrets: push each in order; a failed
push terminates the run without touching the remaining names. -/
def publishSecrets (putStatus : String → Nat → Nat) :
    List String → List Event × Except String Unit
  | [] => ([], Except.ok ())
  | name :: rest =>
    let r := pushSecretEvents name (putStatus name)
    if r.2 then
      let rr := publishSecrets putStatus rest
      (r.1 ++ rr.1, rr.2)
    else (r.1, Except.error (pushErrMsg name))

/-- The publish (`--update-secrets`) phase after its precondition checks:
fetch the public key (fatal after exhausted retries), read the account
id, generate the database password, then push the six secrets. -/
def updateSecretsPhase (env : RunEnv) : List Event × Except String Unit :=
  match env.publicKey with
  | none => ([Event.ghPublicKeyFetch], Except.error pkFetchErrMsg)
  | some _ =>
    match generate_pg_password env.pgRand 8 with
    | Except.error e =>
        ([Event.ghPublicKeyFetch, Event.stsGetAccountId], Except.error e)
    | Except.ok _ =>
        let r := publishSecrets env.putStatus secretNames
        (Event.ghPublicKeyFetch :: Event.stsGetAccountId :: r.1, r.2)

/-- Model of `main`: run the requested phases in source order (deploy,
rotate, publish), thread the rotated credential pair in memory only, and
apply the precondition checks of the publish phase and the final
no-intent check. -/
def pre_apply_main (args : Args) (env : RunEnv) : List Event × Except String Unit :=
  let deployRes : List Event × Except String Unit :=
    if args.deployPreApply then
      let r := deploy_cloudformation env.cf
      (r.1.map Event.cfCall, r.2)
    else ([], Except.ok ())
  match deployRes.2 with
  | Except.error e => (deployRes.1, Except.error e)
  | Except.ok _ =>
    let keyEvents : List Event :=
      if args.generateKey then
        Event.iamListKeys ::
          ((generate_aws_keys env.iamKeys env.freshId env.freshSecret).deletedKeys.map
            Event.iamDeleteKey ++ [Event.iamCreateKey])
      else []
    let creds : Option (String × String) :=
      if args.generateKey then some (env.freshId, env.freshSecret) else none
    let evs := deployRes.1 ++ keyEvents
    if args.updateSecrets then
      if args.ghToken = "" then (evs, Except.error tokenErrMsg)
      else
        match creds with
        | none => (evs, Except.error credsErrMsg)
        | some (id, secret) =>
          if id = "" ∨ secret = "" then (evs, Except.error credsErrMsg)
          else
            let r := updateSecretsPhase env
            (evs ++ r.1, r.2)
    else if args.deployPreApply ∨ args.generateKey then (evs, Except.ok ())
    else (evs, Except.error noActionMsg)

/-! ### Helper lemmas -/

/-- A choice from a nonempty pool is a member of the pool. -/
theorem pyChoice_mem (n : Nat) (s : List Char) (h : s ≠ []) :
    pyChoice n s ∈ s := by
  unfold pyChoice
  have hl : 0 < s.length := List.length_pos.mpr h
  have hm : n % s.length < s.length := Nat.mod_lt _ hl
  rw [List.getD_eq_getElem s 'A' hm]
  exact List.getElem_mem hm

/-- The fuelled shuffle is a permutation of its input, for every fuel and
randomness stream. -/
theorem shuffleAux_perm (fuel : Nat) :
    ∀ rand : List Nat, ∀ l : List Char, List.Perm (shuffleAux rand fuel l) l := by
  induction fuel with
  | zero => intro rand l; simp [shuffleAux]
  | succ fuel ih =>
    intro rand l
    match l with
    | [] => simp [shuffleAux]
    | x :: xs =>
      have hmem : pyChoice (rand.headD 0) (x :: xs) ∈ x :: xs :=
        pyChoice_mem _ _ (List.cons_ne_nil x xs)
      have hstep : shuffleAux rand (fuel + 1) (x :: xs) =
          pyChoice (rand.headD 0) (x :: xs) ::
            shuffleAux rand.tail fuel
              ((x :: xs).erase (pyChoice (rand.headD 0) (x :: xs))) := by
        simp [shuffleAux]
      rw [hstep]
      exact ((ih rand.tail _).cons _).trans (List.perm_cons_erase hmem).symm

/-- `pyShuffle` permutes its input for every randomness stream. -/
theorem pyShuffle_perm (rand : List Nat) (l : List Char) :
    List.Perm (pyShuffle rand l) l :=
  shuffleAux_perm l.length rand l

/-- The number of PUT calls made never exceeds the remaining fuel. -/
theorem pushAttempts_le (status : Nat → Nat) (fuel : Nat) :
    ∀ i, (pushAttempts status i fuel).1 ≤ fuel := by
  induction fuel with
  | zero => intro i; simp [pushAttempts]
  | succ n ih =>
    intro i
    unfold pushAttempts
    by_cases h : isSuccessStatus (status i) = true
    · simp [h]
    · simp only [Bool.not_eq_true] at h
      simp [h]
      have := ih (i + 1)
      omega

/-! ### Claims -/

/-- C1 (amended): the local template hash is the MD5 hexdigest of the raw
template body while the remote hash is the MD5 hexdigest of the JSON
re-serialization of the body returned by `get_template`, so the two
hashing schemes are not identical and byte-identical bodies in general
hash differently; over these computed hashes the reconciler attempts a
mutation (create or update) exactly when the stack does not exist or the
remote hash differs from the local hash. -/
theorem c1_drift_law (env : CFEnv) :
    (CFCall.createStack ∈ (deploy_cloudformation env).1 ∨
     CFCall.updateStack ∈ (deploy_cloudformation env).1)
      ↔ (env.stackExists = false ∨
         remoteHash env ≠ some (md5_hash env.templateBody)) := by
  unfold deploy_cloudformation
  by_cases he : env.stackExists
  · by_cases hh : remoteHash env = some (md5_hash env.templateBody)
    · simp [he, hh]
    · cases hupd : env.updateError with
      | none => simp [he, hh, hupd]
      | some e =>
        by_cases hc : strContains e noUpdatesMsg = true <;> simp [he, hh, hupd, hc]
  · cases hcr : env.createError with
    | none => simp [he, hcr]
    | some e => simp [he, hcr]

set_option maxRecDepth 100000 in
/-- C1 counterexample: with byte-identical local and remote template
bodies ("abc" on both sides) the two computed hashes differ, and the
reconciler reports drift, issuing an update call. -/
theorem c1_counterexample :
    md5_hash (jsonDumpsString "abc") ≠ md5_hash "abc" ∧
    CFCall.updateStack ∈
      (deploy_cloudformation ⟨"abc", true, some "abc", none, none⟩).1 := by
  constructor
  · decide
  · decide

/-- C2: starting from exactly 2 keys, rotation deletes both old keys and
leaves exactly 1; starting from 0 or 1 keys it deletes nothing and leaves
exactly one more key than before; it returns the new key's id and secret
pair. -/
theorem c2_rotation_law (keys : List String) (freshId freshSecret : String) :
    (generate_aws_keys keys freshId freshSecret).newId = freshId ∧
    (generate_aws_keys keys freshId freshSecret).newSecret = freshSecret ∧
    (keys.length = 2 →
      (generate_aws_keys keys freshId freshSecret).finalKeys.length = 1 ∧
      (generate_aws_keys keys freshId freshSecret).deletedKeys = keys) ∧
    (keys.length ≤ 1 →
      (generate_aws_keys keys freshId freshSecret).deletedKeys = [] ∧
      (generate_aws_keys keys freshId freshSecret).finalKeys.length =
        keys.length + 1) := by
  unfold generate_aws_keys
  by_cases h : keys.length ≥ 2
  · simp [h]
    omega
  · simp [h]
    omega

/-- C2 witness: rotating a principal holding exactly the two keys
AKIAOLD1 and AKIAOLD2 deletes both and leaves one key. -/
theorem c2_rotation_law_witness :
    (generate_aws_keys ["AKIAOLD1", "AKIAOLD2"] "AKIANEW" "sekrit").finalKeys.length = 1 ∧
    (generate_aws_keys ["AKIAOLD1", "AKIAOLD2"] "AKIANEW" "sekrit").deletedKeys =
      ["AKIAOLD1", "AKIAOLD2"] :=
  (c2_rotation_law ["AKIAOLD1", "AKIAOLD2"] "AKIANEW" "sekrit").2.2.1 rfl

/-- C3: each secret's PUT loop makes at most 3 calls; a success on the
first attempt stops the loop at once; an endpoint that never succeeds
receives exactly 3 calls and the whole run fails fatally, touching no
further secret; an endpoint failing twice then succeeding receives
exactly 3 calls and the run reports success. -/
theorem c3_publish_retry (status : Nat → Nat) (rest : List (Nat → Nat)) :
    (push_github_secret status).1 ≤ 3 ∧
    (isSuccessStatus (status 1) = true →
      push_github_secret status = (1, true)) ∧
    ((∀ i, isSuccessStatus (status i) = false) →
      push_github_secret status = (3, false) ∧
      publishRun (status :: rest) = ([3], false)) ∧
    (isSuccessStatus (status 1) = false →
      isSuccessStatus (status 2) = false →
      isSuccessStatus (status 3) = true →
      push_github_secret status = (3, true) ∧
      publishRun [status] = ([3], true)) := by
  refine ⟨pushAttempts_le status 3 1, ?_, ?_, ?_⟩
  · intro h1
    simp [push_github_secret, pushAttempts, h1]
  · intro h
    constructor
    · simp [push_github_secret, pushAttempts, h 1, h 2, h 3]
    · simp [publishRun, push_github_secret, pushAttempts, h 1, h 2, h 3]
  · intro h1 h2 h3
    constructor
    · simp [push_github_secret, pushAttempts, h1, h2, h3]
    · simp [publishRun, push_github_secret, pushAttempts, h1, h2, h3]

/-- An endpoint that fails every attempt with HTTP 500. -/
def alwaysFailEndpoint : Nat → Nat := fun _ => 500

/-- An endpoint that fails the first two attempts and then answers 204. -/
def failTwiceEndpoint : Nat → Nat := fun i => if i ≥ 3 then 204 else 500

/-- C3 witness: the always-failing endpoint takes exactly 3 calls and the
run is fatal; the fail-twice endpoint takes exactly 3 calls and the run
succeeds. -/
theorem c3_publish_retry_witness :
    (push_github_secret alwaysFailEndpoint = (3, false) ∧
     publishRun [alwaysFailEndpoint] = ([3], false)) ∧
    (push_github_secret failTwiceEndpoint = (3, true) ∧
     publishRun [failTwiceEndpoint] = ([3], true)) :=
  ⟨(c3_publish_retry alwaysFailEndpoint []).2.2.1 (fun _ => rfl),
   (c3_publish_retry failTwiceEndpoint []).2.2.2 rfl rfl rfl⟩

/-- C6: when the update path is reached and `update_stack` raises, an
error containing the no-updates-to-perform text is reclassified as
success; any other update error propagates; any create error propagates. -/
theorem c6_error_reclassification (env : CFEnv) (e : String) :
    (env.stackExists = true →
      remoteHash env ≠ some (md5_hash env.templateBody) →
      env.updateError = some e →
      ((strContains e noUpdatesMsg = true →
         (deploy_cloudformation env).2 = Except.ok ()) ∧
       (strContains e noUpdatesMsg = false →
         (deploy_cloudformation env).2 = Except.error e))) ∧
    (env.stackExists = false → env.createError = some e →
      (deploy_cloudformation env).2 = Except.error e) := by
  constructor
  · intro he hh hupd
    constructor
    · intro hc
      simp [deploy_cloudformation, he, hh, hupd, hc]
    · intro hc
      simp [deploy_cloudformation, he, hh, hupd, hc]
  · intro he hcr
    simp [deploy_cloudformation, he, hcr]

/-- A run where the stack exists with drift and the update call answers
with the benign no-updates `ClientError`. -/
def envNoUpdates : CFEnv :=
  ⟨"a", true, some "a",
   some "An error occurred (ValidationError): No updates are to be performed.",
   none⟩

/-- A run where the stack is absent and the create call raises. -/
def envCreateFail : CFEnv :=
  ⟨"a", false, none, none, some "create failed"⟩

set_option maxRecDepth 100000 in
/-- C6 witness: the benign update error yields success on a drifting
stack; a create error propagates on an absent stack. -/
theorem c6_error_reclassification_witness :
    (deploy_cloudformation envNoUpdates).2 = Except.ok () ∧
    (deploy_cloudformation envCreateFail).2 = Except.error "create failed" :=
  ⟨((c6_error_reclassification envNoUpdates
      "An error occurred (ValidationError): No updates are to be performed.").1
      rfl (by decide) rfl).1 (by decide),
   (c6_error_reclassification envCreateFail "create failed").2 rfl rfl⟩

/-- C7: when the stack exists and the computed remote hash equals the
local hash, the reconciler issues only the existence query and the
template fetch — no create and no update call — and returns success. -/
theorem c7_skip_law (env : CFEnv) (r : String)
    (he : env.stackExists = true) (hr : env.remoteTemplate = some r)
    (hh : md5_hash (jsonDumpsString r) = md5_hash env.templateBody) :
    (deploy_cloudformation env).1 = [CFCall.describeStacks, CFCall.getTemplate] ∧
    CFCall.createStack ∉ (deploy_cloudformation env).1 ∧
    CFCall.updateStack ∉ (deploy_cloudformation env).1 ∧
    (deploy_cloudformation env).2 = Except.ok () := by
  have hrh : remoteHash env = some (md5_hash env.templateBody) := by
    simp [remoteHash, hr, hh]
  simp [deploy_cloudformation, he, hrh]

/-- A run whose local template body is the 3-character string consisting
of a double quote, the letter x, and a double quote, while the remote
body is the 1-character string x: the remote body's JSON serialization is
byte-identical to the local body, so the computed hashes agree. -/
def envHashMatch : CFEnv :=
  ⟨"\"x\"", true, some "x", none, none⟩

set_option maxRecDepth 100000 in
/-- C7 witness: on `envHashMatch` the reconciler issues no mutation call
and succeeds. -/
theorem c7_skip_law_witness :
    (deploy_cloudformation envHashMatch).1 =
      [CFCall.describeStacks, CFCall.getTemplate] ∧
    CFCall.createStack ∉ (deploy_cloudformation envHashMatch).1 ∧
    CFCall.updateStack ∉ (deploy_cloudformation envHashMatch).1 ∧
    (deploy_cloudformation envHashMatch).2 = Except.ok () :=
  c7_skip_law envHashMatch "x" rfl rfl (by decide)

/-- C8: starting from at most 2 keys, every key set observable during the
rotation — initial, after each single deletion, after the creation — has
at most 2 keys. -/
theorem c8_cap_invariant (keys : List String) (freshId : String)
    (h : keys.length ≤ 2) :
    ∀ s ∈ rotationStates keys freshId, s.length ≤ 2 := by
  intro s hs
  unfold rotationStates at hs
  by_cases h2 : keys.length ≥ 2
  · simp [h2] at hs
    rcases hs with ⟨i, hi, rfl⟩ | rfl
    · simp
      omega
    · simp
  · simp [h2] at hs
    rcases hs with rfl | rfl
    · exact h
    · simp
      omega

/-- C8 witness: the one-key set reached after the first deletion is an
observable intermediate state of rotating the full 2-key set, and it
respects the cap. -/
theorem c8_cap_invariant_witness :
    ["AKIAOLD2"] ∈ rotationStates ["AKIAOLD1", "AKIAOLD2"] "AKIANEW" ∧
    (["AKIAOLD2"] : List String).length ≤ 2 :=
  ⟨by decide,
   c8_cap_invariant ["AKIAOLD1", "AKIAOLD2"] "AKIANEW" (by decide)
     ["AKIAOLD2"] (by decide)⟩

/-- C10: when the stack exists but the template fetch raises, the
reconciler still issues the fetch, treats the remote hash as unknown, and
proceeds to attempt the update; if the update succeeds the run succeeds. -/
theorem c10_fetch_failure_proceeds (env : CFEnv)
    (he : env.stackExists = true) (hr : env.remoteTemplate = none) :
    CFCall.getTemplate ∈ (deploy_cloudformation env).1 ∧
    CFCall.updateStack ∈ (deploy_cloudformation env).1 ∧
    (env.updateError = none → (deploy_cloudformation env).2 = Except.ok ()) := by
  have hrh : remoteHash env = none := by simp [remoteHash, hr]
  cases hupd : env.updateError with
  | none => simp [deploy_cloudformation, he, hrh, hupd]
  | some e =>
    by_cases hc : strContains e noUpdatesMsg = true <;>
      simp [deploy_cloudformation, he, hrh, hupd, hc]

/-- A run where the stack exists but the template fetch raises. -/
def envFetchFails : CFEnv :=
  ⟨"body", true, none, none, none⟩

/-- C10 witness: on `envFetchFails` the update is attempted and the run
succeeds. -/
theorem c10_fetch_failure_proceeds_witness :
    CFCall.getTemplate ∈ (deploy_cloudformation envFetchFails).1 ∧
    CFCall.updateStack ∈ (deploy_cloudformation envFetchFails).1 ∧
    (envFetchFails.updateError = none →
      (deploy_cloudformation envFetchFails).2 = Except.ok ()) :=
  c10_fetch_failure_proceeds envFetchFails rfl rfl

/-- Characters survive the shuffle: membership in the pre-shuffle pool
gives membership in the password's characters. -/
theorem mem_shuffle_of_mem_pool (rd : List Nat) (l : List Char) (c : Char)
    (hc : c ∈ l) : c ∈ (String.mk (pyShuffle rd l)).data :=
  (pyShuffle_perm rd l).mem_iff.mpr hc

/-- The shuffle preserves length, read off the resulting string. -/
theorem length_mk_shuffle (rd : List Nat) (l : List Char) :
    (String.mk (pyShuffle rd l)).length = l.length :=
  (pyShuffle_perm rd l).length_eq

/-- C4: for every randomness stream and requested length of at least 4,
the generated password has exactly the requested length and contains at
least one uppercase letter, one lowercase letter, one digit, and one
symbol; for lengths below 4 the call fails with the validation error. -/
theorem c4_password_law (rand : List Nat) (length : Nat) :
    (4 ≤ length → ∃ p, generate_pg_password rand length = Except.ok p ∧
       p.length = length ∧
       (∃ c ∈ p.data, c ∈ letters_upper.data) ∧
       (∃ c ∈ p.data, c ∈ letters_lower.data) ∧
       (∃ c ∈ p.data, c ∈ digits.data) ∧
       (∃ c ∈ p.data, c ∈ symbols.data)) ∧
    (length < 4 → generate_pg_password rand length = Except.error pgErrMsg) := by
  constructor
  · intro h
    have hnl : ¬ length < 4 := Nat.not_lt.mpr h
    refine ⟨String.mk (pyShuffle (rand.drop length) (pgPool rand length)),
      by simp [generate_pg_password, hnl], ?_, ?_, ?_, ?_, ?_⟩
    · rw [length_mk_shuffle]
      simp [pgPool]
      omega
    · exact ⟨pyChoice (rand.getD 0 0) letters_upper.data,
        mem_shuffle_of_mem_pool _ _ _ (by simp [pgPool]),
        pyChoice_mem _ _ (by decide)⟩
    · exact ⟨pyChoice (rand.getD 1 0) letters_lower.data,
        mem_shuffle_of_mem_pool _ _ _ (by simp [pgPool]),
        pyChoice_mem _ _ (by decide)⟩
    · exact ⟨pyChoice (rand.getD 2 0) digits.data,
        mem_shuffle_of_mem_pool _ _ _ (by simp [pgPool]),
        pyChoice_mem _ _ (by decide)⟩
    · exact ⟨pyChoice (rand.getD 3 0) symbols.data,
        mem_shuffle_of_mem_pool _ _ _ (by simp [pgPool]),
        pyChoice_mem _ _ (by decide)⟩
  · intro h
    simp [generate_pg_password, h]

/-- C4 witness: at requested length 5 a password with all four classes is
produced, and at length 3 the validation error is raised. -/
theorem c4_password_law_witness :
    (∃ p, generate_pg_password [] 5 = Except.ok p ∧
       p.length = 5 ∧
       (∃ c ∈ p.data, c ∈ letters_upper.data) ∧
       (∃ c ∈ p.data, c ∈ letters_lower.data) ∧
       (∃ c ∈ p.data, c ∈ digits.data) ∧
       (∃ c ∈ p.data, c ∈ symbols.data)) ∧
    generate_pg_password [] 3 = Except.error pgErrMsg :=
  ⟨(c4_password_law [] 5).1 (by decide), (c4_password_law [] 3).2 (by decide)⟩

/-- C9 counterexample: the union alphabet of uppercase letters, lowercase
letters, the digits 1 through 9, and the thirteen symbols has 74
characters, not 71 as the claim states. -/
theorem c9_counterexample : all_chars.length = 74 ∧ ¬ all_chars.length = 71 := by
  constructor
  · decide
  · decide

/-- C9 (amended): every character of every generated password belongs to
the fixed 74-character alphabet consisting of ASCII uppercase letters,
ASCII lowercase letters, the digits 1 through 9, and the fixed symbols;
in particular the character 0 never appears in a generated password. -/
theorem c9_alphabet_closure (rand : List Nat) (length : Nat) (p : String)
    (h : generate_pg_password rand length = Except.ok p) :
    (∀ c ∈ p.data, c ∈ all_chars.data) ∧ '0' ∉ p.data := by
  by_cases hl : length < 4
  · simp [generate_pg_password, hl] at h
  · simp only [generate_pg_password, if_neg hl, Except.ok.injEq] at h
    subst h
    have hall : ∀ c ∈ (String.mk (pyShuffle (rand.drop length)
        (pgPool rand length))).data, c ∈ all_chars.data := by
      intro c hc
      have hc' : c ∈ pgPool rand length := (pyShuffle_perm _ _).mem_iff.mp hc
      have hu : ∀ x ∈ letters_upper.data, x ∈ all_chars.data := by decide
      have hlo : ∀ x ∈ letters_lower.data, x ∈ all_chars.data := by decide
      have hd : ∀ x ∈ digits.data, x ∈ all_chars.data := by decide
      have hsy : ∀ x ∈ symbols.data, x ∈ all_chars.data := by decide
      simp only [pgPool, List.mem_append, List.mem_cons, List.mem_map,
        List.mem_range, List.not_mem_nil, or_false] at hc'
      rcases hc' with (rfl | rfl | rfl | rfl) | ⟨k, hk, rfl⟩
      · exact hu _ (pyChoice_mem _ _ (by decide))
      · exact hlo _ (pyChoice_mem _ _ (by decide))
      · exact hd _ (pyChoice_mem _ _ (by decide))
      · exact hsy _ (pyChoice_mem _ _ (by decide))
      · exact pyChoice_mem _ _ (by decide)
    refine ⟨hall, fun h0 => ?_⟩
    exact absurd (hall '0' h0) (by decide)

/-- C9 witness: the password generated at length 5 from the empty stream
draws only from the union alphabet and contains no 0. -/
theorem c9_alphabet_closure_witness :
    (∀ c ∈ ("Aa1!A" : String).data, c ∈ all_chars.data) ∧
    '0' ∉ ("Aa1!A" : String).data :=
  c9_alphabet_closure [] 5 "Aa1!A" rfl

/-- C5: an invocation requesting the publish phase while the rotate phase
did not run in the same invocation always terminates with an error, emits
no publish-phase network call (no public-key fetch, no account-id read,
no secret PUT) and publishes nothing; when no deploy phase was requested
the error is precisely the descriptive missing-token or
missing-credentials message, raised before any call at all. -/
theorem c5_publish_precondition (args : Args) (env : RunEnv)
    (hu : args.updateSecrets = true) (hg : args.generateKey = false) :
    (∃ m, (pre_apply_main args env).2 = Except.error m) ∧
    (∀ e ∈ (pre_apply_main args env).1,
      isPublishNetworkEvent e = false ∧ isPublishedEvent e = false) ∧
    (args.deployPreApply = false →
      (pre_apply_main args env).1 = [] ∧
      (pre_apply_main args env).2 =
        Except.error (if args.ghToken = "" then tokenErrMsg else credsErrMsg)) := by
  cases hd : args.deployPreApply with
  | false =>
    by_cases ht : args.ghToken = ""
    · refine ⟨⟨tokenErrMsg, ?_⟩, ?_, fun _ => ⟨?_, ?_⟩⟩ <;>
        simp [pre_apply_main, hd, hu, hg, ht]
    · refine ⟨⟨credsErrMsg, ?_⟩, ?_, fun _ => ⟨?_, ?_⟩⟩ <;>
        simp [pre_apply_main, hd, hu, hg, ht]
  | true =>
    cases hres : (deploy_cloudformation env.cf).2 with
    | error e =>
      refine ⟨⟨e, ?_⟩, ?_, ?_⟩
      · simp [pre_apply_main, hd, hres]
      · intro ev hev
        simp [pre_apply_main, hd, hres] at hev
        obtain ⟨c, _, rfl⟩ := hev
        exact ⟨rfl, rfl⟩
      · intro hcontra
        exact absurd hcontra (by decide)
    | ok u =>
      cases u
      by_cases ht : args.ghToken = ""
      · refine ⟨⟨tokenErrMsg, ?_⟩, ?_, ?_⟩
        · simp [pre_apply_main, hd, hu, hg, ht, hres]
        · intro ev hev
          simp [pre_apply_main, hd, hu, hg, ht, hres] at hev
          obtain ⟨c, _, rfl⟩ := hev
          exact ⟨rfl, rfl⟩
        · intro hcontra
          exact absurd hcontra (by decide)
      · refine ⟨⟨credsErrMsg, ?_⟩, ?_, ?_⟩
        · simp [pre_apply_main, hd, hu, hg, ht, hres]
        · intro ev hev
          simp [pre_apply_main, hd, hu, hg, ht, hres] at hev
          obtain ⟨c, _, rfl⟩ := hev
          exact ⟨rfl, rfl⟩
        · intro hcontra
          exact absurd hcontra (by decide)

/-- An environment for the C5 witness: absent stack, a principal with no
keys, no reachable public key, and endpoints that always fail. -/
def c5Env : RunEnv :=
  ⟨⟨"b", false, none, none, none⟩, [], "AKIANEW", "sekrit", none, "123",
   fun _ _ => 500, []⟩

/-- C5 witness: requesting only the publish phase with a token set still
fails with the missing-credentials message, with an empty event trace. -/
theorem c5_publish_precondition_witness :
    (∃ m, (pre_apply_main ⟨false, false, true, "tok"⟩ c5Env).2 = Except.error m) ∧
    (∀ e ∈ (pre_apply_main ⟨false, false, true, "tok"⟩ c5Env).1,
      isPublishNetworkEvent e = false ∧ isPublishedEvent e = false) ∧
    (Args.deployPreApply ⟨false, false, true, "tok"⟩ = false →
      (pre_apply_main ⟨false, false, true, "tok"⟩ c5Env).1 = [] ∧
      (pre_apply_main ⟨false, false, true, "tok"⟩ c5Env).2 =
        Except.error (if Args.ghToken ⟨false, false, true, "tok"⟩ = ""
          then tokenErrMsg else credsErrMsg)) :=
  c5_publish_precondition ⟨false, false, true, "tok"⟩ c5Env rfl rfl
